import Mathlib

/-!
# Verification of the Analyze India backend core

Shallow embedding of the live fan-out / broadcast subsystem and the
subscription service of the repository (src/main.py, src/database.py),
with theorems settling the specification claims.

Modelling conventions:
* a WebSocket connection is identified by a natural number (`Conn`);
* `TweetManager.active`, a Python `set`, is a duplicate-free list;
* the outcome of `await ws.send_text(...)` is an oracle `ok : Conn → Bool`
  (`true` = the send succeeds, `false` = it raises an exception);
* the broadcast log records each attempted send as
  `(connection, payload, succeeded)`;
* wall-clock time and `datetime.utcnow()` are natural numbers.
-/

/-- A live-update connection (a WebSocket handle), identified by a number. -/
abbrev Conn := Nat

/-- A broadcastable event message, the shape produced by `simulate_tweets`
in src/main.py: `{"id": ..., "user": ..., "text": ..., "sentiment": ...}`. -/
structure Msg where
  id : String
  user : String
  text : String
  sentiment : String
deriving DecidableEq

/-- Serialization of a message dict by `json.dumps`, assuming field strings need no JSON
escaping (true of every message the repository produces). -/
def serialize (m : Msg) : String :=
  "\x7b\"id\": \"" ++ m.id ++ "\", \"user\": \"" ++ m.user ++
    "\", \"text\": \"" ++ m.text ++ "\", \"sentiment\": \"" ++ m.sentiment ++ "\"\x7d"

/-- The connection registry: `TweetManager.active` of src/main.py
(a Python `set[WebSocket]`, modelled as a duplicate-free list). -/
structure TweetManager where
  active : List Conn
deriving DecidableEq

/-- Method `TweetManager.connect` (src/main.py:244-246): accept the handshake and
add the connection to the `active` set (set add: no duplicate entries). -/
def TweetManager.connect (m : TweetManager) (ws : Conn) : TweetManager :=
  { active := if ws ∈ m.active then m.active else m.active ++ [ws] }

/-- Method `TweetManager.disconnect` (src/main.py:248-249): `self.active.discard(ws)`. -/
def TweetManager.disconnect (m : TweetManager) (ws : Conn) : TweetManager :=
  { active := m.active.filter (fun x => x ≠ ws) }

/-- One attempted send of the fan-out: connection, payload, and whether
`ws.send_text` succeeded. -/
abbrev SendAttempt := Conn × String × Bool

/-- Method `TweetManager.broadcast` (src/main.py:251-260): serialize the message
once, attempt a send to every member of a snapshot of `active`
(`list(self.active)`), collect the connections whose send raised into
`remove`, then `disconnect` each of them.  Returns the new registry state
and the log of attempted sends. -/
def TweetManager.broadcast (ok : Conn → Bool) (m : TweetManager) (msg : Msg) :
    TweetManager × List SendAttempt :=
  let text := serialize msg
  let attempts := m.active.map (fun ws => (ws, text, ok ws))
  let remove := m.active.filter (fun ws => !ok ws)
  (remove.foldl TweetManager.disconnect m, attempts)

/-- One iteration of `tweet_broadcaster` (src/main.py:266-272): dequeue the
head of the FIFO queue (suspending — `none` — when empty) and broadcast it. -/
def broadcaster_step (ok : Conn → Bool) (m : TweetManager) :
    List Msg → Option (List Msg × (TweetManager × List SendAttempt))
  | [] => none
  | e :: q => some (q, TweetManager.broadcast ok m e)

/-- The `tweet_broadcaster` loop (src/main.py:266-272) run over a finite
FIFO queue of events.  Between dequeues the environment may act: before
event `i` is dequeued, the connections `arrive i` complete their handshake
(`websocket_tweets` → `connect`) and the connections `depart i` disconnect
(receive error → `disconnect`); `ok i` tells which sends succeed during the
fan-out of event `i`.  Returns the final registry and the send log. -/
def tweet_broadcaster (arrive depart : Nat → List Conn) (ok : Nat → Conn → Bool)
    (m : TweetManager) : List Msg → TweetManager × List SendAttempt
  | [] => (m, [])
  | e :: es =>
    let m1 := (arrive 0).foldl TweetManager.connect m
    let m2 := (depart 0).foldl TweetManager.disconnect m1
    let out := TweetManager.broadcast (ok 0) m2 e
    let rest := tweet_broadcaster (fun i => arrive (i + 1)) (fun i => depart (i + 1))
      (fun i => ok (i + 1)) out.1 es
    (rest.1, out.2 ++ rest.2)

/-- The payloads delivered (successful sends) to connection `c`, in log order. -/
def deliveredTo (c : Conn) (log : List SendAttempt) : List String :=
  (log.filter (fun t => t.1 == c && t.2.2)).map (fun t => t.2.1)

/-- The `n`-th synthetic tweet of `simulate_tweets` (src/main.py:279). -/
def fakeTweet (counter : Nat) : Msg :=
  { id := "sim-" ++ toString counter
    user := "@simulator"
    text := "Simulated tweet #" ++ toString counter
    sentiment := "Neutral" }

/-- The `simulate_tweets` loop body (src/main.py:275-281) run for `n`
iterations, threading the `counter` (starts at 1) and a clock (each
iteration first `await asyncio.sleep(2)`, then enqueues).  Produces the
list of (enqueue time, message) pairs in enqueue order. -/
def simulate_tweets_loop : Nat → Nat → Nat → List (Nat × Msg)
  | 0, _, _ => []
  | n + 1, counter, clock =>
    (clock + 2, fakeTweet counter) :: simulate_tweets_loop n (counter + 1) (clock + 2)

/-- Function `simulate_tweets` (src/main.py:275-281): the first `n` enqueued
synthetic tweets with their enqueue times, counter starting at 1, clock at 0. -/
def simulate_tweets (n : Nat) : List (Nat × Msg) :=
  simulate_tweets_loop n 1 0

/-- The `Subscriber` table row (src/database.py:22-27): `id` is assigned by
the database on commit, `email` is the requested address, `is_active`
defaults to `True`, `date_subscribed` defaults to `datetime.utcnow()`. -/
structure Subscriber where
  id : Option Nat
  email : String
  is_active : Bool
  date_subscribed : Nat
deriving DecidableEq

/-- The response of the subscribe endpoint: a success message, or an
`HTTPException` with a status code and detail string. -/
inductive SubscribeResponse where
  | ok (message : String)
  | httpError (status : Nat) (detail : String)
deriving DecidableEq

/-- Endpoint `subscribe_user` (src/main.py:208-236).  `email` is the request body
value `email.get('email')` (`none` = key absent); `now` the commit
timestamp; `confSet` whether the mail `ConnectionConfig` was built; `db`
the persisted Subscriber rows.  Returns the HTTP response, the rows after
the call, and the recipients of the welcome-email background tasks that
were scheduled.  Mirrors the source: `if not user_email` covers both an
absent and an empty string value; the duplicate check is
`select(Subscriber).where(Subscriber.email == user_email)...first()`;
on success a `Subscriber(email=user_email)` is added and committed (the
database assigns the next id), and the success acknowledgment is returned
right after the commit, before any background task runs. -/
def subscribe_user (email : Option String) (now : Nat) (confSet : Bool)
    (db : List Subscriber) : SubscribeResponse × List Subscriber × List String :=
  match email with
  | none => (.httpError 422 "Email is required.", db, [])
  | some user_email =>
    if user_email.isEmpty then (.httpError 422 "Email is required.", db, [])
    else
      match db.find? (fun s => s.email == user_email) with
      | some _ => (.httpError 400 "Email already subscribed.", db, [])
      | none =>
        let new_subscriber : Subscriber :=
          { id := some (db.length + 1), email := user_email
            is_active := true, date_subscribed := now }
        (.ok "Subscription successful. A welcome email is being sent (if configured).",
          db ++ [new_subscriber],
          if confSet then [user_email] else [])

/-- The observable outcome of one `send_welcome_email` background task. -/
inductive MailLog where
  | skipped
  | sent (recipient : String)
  | failedLogged (recipient : String)
deriving DecidableEq

/-- Task `send_welcome_email` (src/main.py:138-175): if the mail configuration
is absent the task logs and returns; otherwise it sends, and a send
failure (`mailOk = false`) is caught, logged and swallowed — the task
never raises. -/
def send_welcome_email (confSet mailOk : Bool) (recipient : String) : MailLog :=
  if !confSet then .skipped
  else if mailOk then .sent recipient
  else .failedLogged recipient

/-- One whole subscribe request: run `subscribe_user`, then run the
scheduled background tasks (the response was already produced before they
run).  `mailOk` is the outcome oracle of the mail sends. -/
def handle_subscribe (email : Option String) (now : Nat) (confSet mailOk : Bool)
    (db : List Subscriber) : SubscribeResponse × List Subscriber × List MailLog :=
  let r := subscribe_user email now confSet db
  (r.1, r.2.1, r.2.2.map (send_welcome_email confSet mailOk))

/-! ## Registry lemmas -/

theorem connect_mem (m : TweetManager) (w c : Conn) (h : c ∈ m.active) :
    c ∈ (m.connect w).active := by
  unfold TweetManager.connect
  by_cases hw : w ∈ m.active <;> simp [hw, h]

theorem foldl_connect_mem (ws : List Conn) (m : TweetManager) (c : Conn)
    (h : c ∈ m.active) : c ∈ (ws.foldl TweetManager.connect m).active := by
  induction ws generalizing m with
  | nil => exact h
  | cons w ws ih => exact ih _ (connect_mem m w c h)

theorem connect_nodup (m : TweetManager) (w : Conn) (h : m.active.Nodup) :
    (m.connect w).active.Nodup := by
  unfold TweetManager.connect
  by_cases hw : w ∈ m.active
  · simpa [hw] using h
  · simp only [hw, if_false]
    simpa [List.nodup_append, hw] using h

theorem foldl_connect_nodup (ws : List Conn) (m : TweetManager)
    (h : m.active.Nodup) : (ws.foldl TweetManager.connect m).active.Nodup := by
  induction ws generalizing m with
  | nil => exact h
  | cons w ws ih => exact ih _ (connect_nodup m w h)

theorem foldl_disconnect_active (rs : List Conn) (m : TweetManager) :
    (rs.foldl TweetManager.disconnect m).active
      = m.active.filter (fun x => decide (x ∉ rs)) := by
  induction rs generalizing m with
  | nil => simp
  | cons r rs ih =>
    rw [List.foldl_cons, ih]
    show (m.active.filter (fun x => decide (x ≠ r))).filter (fun x => decide (x ∉ rs)) = _
    rw [List.filter_filter]
    apply List.filter_congr
    intro x _
    simp [List.mem_cons, not_or, Bool.and_comm]

theorem foldl_disconnect_mem (rs : List Conn) (m : TweetManager) (c : Conn)
    (h : c ∈ m.active) (hc : c ∉ rs) :
    c ∈ (rs.foldl TweetManager.disconnect m).active := by
  rw [foldl_disconnect_active]
  exact List.mem_filter.mpr ⟨h, by simpa using hc⟩

theorem foldl_disconnect_nodup (rs : List Conn) (m : TweetManager)
    (h : m.active.Nodup) : (rs.foldl TweetManager.disconnect m).active.Nodup := by
  rw [foldl_disconnect_active]
  exact h.filter _

/-! ## Broadcast lemmas -/

theorem broadcast_attempts (ok : Conn → Bool) (m : TweetManager) (msg : Msg) :
    (TweetManager.broadcast ok m msg).2
      = m.active.map (fun ws => (ws, serialize msg, ok ws)) := rfl

theorem broadcast_active (ok : Conn → Bool) (m : TweetManager) (msg : Msg) :
    (TweetManager.broadcast ok m msg).1.active = m.active.filter ok := by
  show ((m.active.filter (fun ws => !ok ws)).foldl TweetManager.disconnect m).active = _
  rw [foldl_disconnect_active]
  apply List.filter_congr
  intro x hx
  by_cases h : ok x <;> simp [List.mem_filter, hx, h]

theorem deliveredTo_nil (c : Conn) : deliveredTo c [] = [] := rfl

theorem deliveredTo_cons (c : Conn) (a : SendAttempt) (l : List SendAttempt) :
    deliveredTo c (a :: l)
      = if a.1 == c && a.2.2 then a.2.1 :: deliveredTo c l else deliveredTo c l := by
  simp only [deliveredTo, List.filter_cons]
  split <;> simp

theorem deliveredTo_append (c : Conn) (l₁ l₂ : List SendAttempt) :
    deliveredTo c (l₁ ++ l₂) = deliveredTo c l₁ ++ deliveredTo c l₂ := by
  simp [deliveredTo, List.filter_append]

theorem deliveredTo_map_of_not_mem (c : Conn) (t : String) (ok : Conn → Bool)
    (l : List Conn) (h : c ∉ l) :
    deliveredTo c (l.map (fun ws => (ws, t, ok ws))) = [] := by
  induction l with
  | nil => rfl
  | cons w ws ih =>
    simp only [List.mem_cons, not_or] at h
    rw [List.map_cons, deliveredTo_cons]
    have hw : (w == c) = false := beq_eq_false_iff_ne.mpr (Ne.symm h.1)
    simp [hw, ih h.2]

theorem deliveredTo_map_nodup (c : Conn) (t : String) (ok : Conn → Bool)
    (l : List Conn) (hnd : l.Nodup) (hc : c ∈ l) (hok : ok c = true) :
    deliveredTo c (l.map (fun ws => (ws, t, ok ws))) = [t] := by
  induction l with
  | nil => cases hc
  | cons w ws ih =>
    rw [List.map_cons, deliveredTo_cons]
    rcases List.mem_cons.mp hc with h | h
    · subst h
      have hcw : c ∉ ws := (List.nodup_cons.mp hnd).1
      simp [hok, deliveredTo_map_of_not_mem c t ok ws hcw]
    · have hw : (w == c) = false := by
        have : w ≠ c := fun e => (List.nodup_cons.mp hnd).1 (e ▸ h)
        exact beq_eq_false_iff_ne.mpr this
      simp [hw, ih (List.nodup_cons.mp hnd).2 h]

/-! ## Claim theorems -/

/-- C1: for every sequence of events placed on the ingestion queue, and any
connections arriving, departing or failing around each dequeue, a client
that is connected from the start, never departs and whose sends never fail
receives exactly the enqueued events, serialized, in enqueue order — no
reordering, no duplication, no loss. -/
theorem broadcaster_fifo_per_client (evts : List Msg)
    (arrive depart : Nat → List Conn) (ok : Nat → Conn → Bool)
    (m : TweetManager) (c : Conn)
    (hnd : m.active.Nodup) (hc : c ∈ m.active)
    (hok : ∀ i, ok i c = true) (hdep : ∀ i, c ∉ depart i) :
    deliveredTo c (tweet_broadcaster arrive depart ok m evts).2
      = evts.map serialize := by
  induction evts generalizing arrive depart ok m with
  | nil => rfl
  | cons e es ih =>
    have hnd1 := foldl_connect_nodup (arrive 0) m hnd
    have hc1 := foldl_connect_mem (arrive 0) m c hc
    have hnd2 := foldl_disconnect_nodup (depart 0) _ hnd1
    have hc2 := foldl_disconnect_mem (depart 0) _ c hc1 (hdep 0)
    set m2 := (depart 0).foldl TweetManager.disconnect
      ((arrive 0).foldl TweetManager.connect m) with hm2
    have hout_nd : (TweetManager.broadcast (ok 0) m2 e).1.active.Nodup := by
      rw [broadcast_active]; exact hnd2.filter _
    have hout_mem : c ∈ (TweetManager.broadcast (ok 0) m2 e).1.active := by
      rw [broadcast_active]; exact List.mem_filter.mpr ⟨hc2, hok 0⟩
    have hrest := ih (fun i => arrive (i + 1)) (fun i => depart (i + 1))
      (fun i => ok (i + 1)) (TweetManager.broadcast (ok 0) m2 e).1
      hout_nd hout_mem (fun i => hok (i + 1)) (fun i => hdep (i + 1))
    show deliveredTo c ((TweetManager.broadcast (ok 0) m2 e).2 ++ _) = _
    rw [deliveredTo_append, hrest, broadcast_attempts,
      deliveredTo_map_nodup c _ (ok 0) m2.active hnd2 hc2 (hok 0)]
    rfl

/-- Witness for C1: one client (5), two events, no arrivals, departures or
failures: client 5 receives both payloads in order. -/
theorem broadcaster_fifo_per_client_witness :
    deliveredTo 5 (tweet_broadcaster (fun _ => []) (fun _ => []) (fun _ _ => true)
        ⟨[5]⟩ [fakeTweet 1, fakeTweet 2]).2
      = [serialize (fakeTweet 1), serialize (fakeTweet 2)] :=
  broadcaster_fifo_per_client [fakeTweet 1, fakeTweet 2] _ _ _ ⟨[5]⟩ 5
    (by decide) (by decide) (fun _ => rfl) (fun _ => by decide)

/-- C2: during one broadcast, a failing connection `c` does not prevent
delivery to any other connection `w` of the snapshot whose send succeeds,
and after the broadcast cycle `c` is no longer in the registry. -/
theorem broadcast_failure_isolated (ok : Conn → Bool) (m : TweetManager) (msg : Msg)
    (c w : Conn) (hc : c ∈ m.active) (hcf : ok c = false)
    (hw : w ∈ m.active) (hwo : ok w = true) :
    (w, serialize msg, true) ∈ (TweetManager.broadcast ok m msg).2 ∧
    c ∉ (TweetManager.broadcast ok m msg).1.active := by
  refine ⟨?_, ?_⟩
  · rw [broadcast_attempts]
    exact List.mem_map.mpr ⟨w, hw, by rw [hwo]⟩
  · rw [broadcast_active]
    intro hmem
    have h2 := (List.mem_filter.mp hmem).2
    rw [hcf] at h2
    exact Bool.false_ne_true h2

/-- Witness for C2: registry `{0, 1}`, the send to 0 fails, the send to 1
succeeds: 1 still gets the payload and 0 is gone from the registry. -/
theorem broadcast_failure_isolated_witness :
    (1, serialize (fakeTweet 1), true)
        ∈ (TweetManager.broadcast (fun n => n == 1) ⟨[0, 1]⟩ (fakeTweet 1)).2 ∧
    0 ∉ (TweetManager.broadcast (fun n => n == 1) ⟨[0, 1]⟩ (fakeTweet 1)).1.active :=
  broadcast_failure_isolated (fun n => n == 1) ⟨[0, 1]⟩ (fakeTweet 1) 0 1
    (by decide) rfl (by decide) rfl

/-- C6: in one broadcast, every attempted send carries the one serialized
payload of the event, and every connection of the snapshot gets exactly
such an attempt. -/
theorem broadcast_single_payload (ok : Conn → Bool) (m : TweetManager) (msg : Msg)
    (w : Conn) (hw : w ∈ m.active) :
    (∀ t ∈ (TweetManager.broadcast ok m msg).2, t.2.1 = serialize msg) ∧
    (w, serialize msg, ok w) ∈ (TweetManager.broadcast ok m msg).2 := by
  refine ⟨fun t ht => ?_, ?_⟩
  · rw [broadcast_attempts] at ht
    obtain ⟨x, _, rfl⟩ := List.mem_map.mp ht
    rfl
  · rw [broadcast_attempts]
    exact List.mem_map.mpr ⟨w, hw, rfl⟩

/-- Witness for C6 at registry `{3}`. -/
theorem broadcast_single_payload_witness :
    (∀ t ∈ (TweetManager.broadcast (fun _ => true) ⟨[3]⟩ (fakeTweet 2)).2,
      t.2.1 = serialize (fakeTweet 2)) ∧
    (3, serialize (fakeTweet 2), true)
        ∈ (TweetManager.broadcast (fun _ => true) ⟨[3]⟩ (fakeTweet 2)).2 :=
  broadcast_single_payload (fun _ => true) ⟨[3]⟩ (fakeTweet 2) 3 (by decide)

/-- C7: dequeueing an event with an empty registry is a no-op fan-out that
succeeds: the event is consumed from the queue, no send is attempted, and
the registry stays empty. -/
theorem broadcast_empty_registry_noop (ok : Conn → Bool) (e : Msg) (q : List Msg) :
    broadcaster_step ok ⟨[]⟩ (e :: q) = some (q, ⟨[]⟩, []) := rfl

/-- C8: registry removal is idempotent: removing an absent connection is a
no-op (not an error), and removing twice equals removing once. -/
theorem disconnect_idempotent (m : TweetManager) (c : Conn) :
    (c ∉ m.active → m.disconnect c = m) ∧
    (m.disconnect c).disconnect c = m.disconnect c := by
  obtain ⟨a⟩ := m
  refine ⟨fun h => ?_, ?_⟩
  · simp only [TweetManager.disconnect, TweetManager.mk.injEq]
    refine List.filter_eq_self.mpr fun x hx => ?_
    exact decide_eq_true fun e => h (e ▸ hx)
  · simp only [TweetManager.disconnect, TweetManager.mk.injEq, List.filter_filter]
    exact List.filter_congr fun x _ => by by_cases hxc : x = c <;> simp [hxc]

/-- Witness for C8: removing 3 from `{1, 2}`. -/
theorem disconnect_idempotent_witness :
    TweetManager.disconnect ⟨[1, 2]⟩ 3 = ⟨[1, 2]⟩ ∧
    (TweetManager.disconnect (TweetManager.disconnect ⟨[1, 2]⟩ 3) 3
      = TweetManager.disconnect ⟨[1, 2]⟩ 3) :=
  ⟨(disconnect_idempotent ⟨[1, 2]⟩ 3).1 (by decide),
    (disconnect_idempotent ⟨[1, 2]⟩ 3).2⟩

theorem simulate_tweets_loop_eq (n counter clock : Nat) :
    simulate_tweets_loop n counter clock
      = (List.range n).map (fun i => (clock + 2 * (i + 1), fakeTweet (counter + i))) := by
  induction n generalizing counter clock with
  | zero => rfl
  | succ n ih =>
    rw [simulate_tweets_loop, ih, List.range_succ_eq_map, List.map_cons, List.map_map]
    refine congrArg₂ List.cons (by simp) ?_
    refine List.map_congr_left fun i _ => ?_
    refine Prod.ext ?_ (congrArg fakeTweet (by omega))
    show clock + 2 + 2 * (i + 1) = clock + 2 * (i + 1 + 1)
    omega

/-- C9: the simulator enqueues exactly one event per 2-unit period (the
`i`-th enqueue, 0-based, happens at time `2*(i+1)`), with deterministic
strictly-incrementing identifiers: the `i`-th event is `fakeTweet (i+1)`,
whose id is `"sim-"` followed by `i+1` — so the queue receives
sim-1, sim-2, ... in order. -/
theorem simulate_tweets_spec (n : Nat) :
    simulate_tweets n
      = (List.range n).map (fun i => (2 * (i + 1), fakeTweet (i + 1))) ∧
    ∀ k : Nat, (fakeTweet k).id = "sim-" ++ toString k := by
  refine ⟨?_, fun k => rfl⟩
  rw [simulate_tweets, simulate_tweets_loop_eq]
  refine List.map_congr_left fun i _ => ?_
  exact Prod.ext (by omega) (congrArg fakeTweet (by omega))

/-- C4: a subscribe request whose email is absent or empty fails with the
422 validation error and has no persistence effect: the rows are unchanged
and no background task is scheduled. -/
theorem subscribe_validation (email : Option String) (now : Nat) (conf : Bool)
    (db : List Subscriber) (h : email = none ∨ email = some "") :
    subscribe_user email now conf db = (.httpError 422 "Email is required.", db, []) := by
  have h0 : "".isEmpty = true := by decide
  rcases h with h | h <;> subst h <;> simp [subscribe_user, h0]

/-- Witness for C4: both the absent and the empty email are rejected. -/
theorem subscribe_validation_witness :
    subscribe_user none 0 true [] = (.httpError 422 "Email is required.", [], []) ∧
    subscribe_user (some "") 0 true []
      = (.httpError 422 "Email is required.", [], []) :=
  ⟨subscribe_validation none 0 true [] (Or.inl rfl),
    subscribe_validation (some "") 0 true [] (Or.inr rfl)⟩

/-- C3: if a subscriber with email `e` already exists, `subscribe(e)` fails
with the 400 conflict error and changes nothing; and after a first
successful `subscribe(e)`, a second one is rejected, leaves the rows
unchanged, and exactly one row with email `e` exists. -/
theorem subscribe_conflict (e : String) (now now2 : Nat) (conf conf2 : Bool)
    (db : List Subscriber) (he : e ≠ "") :
    ((∃ s ∈ db, s.email = e) →
      subscribe_user (some e) now conf db
        = (.httpError 400 "Email already subscribed.", db, [])) ∧
    ((∀ s ∈ db, s.email ≠ e) →
      (subscribe_user (some e) now conf db).1
          = .ok "Subscription successful. A welcome email is being sent (if configured)." ∧
      (subscribe_user (some e) now2 conf2 (subscribe_user (some e) now conf db).2.1).1
          = .httpError 400 "Email already subscribed." ∧
      (subscribe_user (some e) now2 conf2 (subscribe_user (some e) now conf db).2.1).2.1
          = (subscribe_user (some e) now conf db).2.1 ∧
      ((subscribe_user (some e) now conf db).2.1.filter
          (fun s => s.email == e)).length = 1) := by
  have hne : e.isEmpty = false := by
    cases h : e.isEmpty
    · rfl
    · exact absurd ((String.isEmpty_iff e).mp h) he
  refine ⟨fun hex => ?_, fun hall => ?_⟩
  · obtain ⟨s, hs, hse⟩ := hex
    have hsome : (db.find? (fun s => s.email == e)).isSome :=
      List.find?_isSome.mpr ⟨s, hs, by simp [hse]⟩
    obtain ⟨t, ht⟩ := Option.isSome_iff_exists.mp hsome
    simp [subscribe_user, hne, ht]
  · have hfind : db.find? (fun s => s.email == e) = none :=
      List.find?_eq_none.mpr fun s hs => by simp [hall s hs]
    have hfilter : db.filter (fun s => s.email == e) = [] :=
      List.filter_eq_nil_iff.mpr fun s hs => by simp [hall s hs]
    have h1 : subscribe_user (some e) now conf db
        = (.ok "Subscription successful. A welcome email is being sent (if configured).",
            db ++ [{ id := some (db.length + 1), email := e
                     is_active := true, date_subscribed := now }],
            if conf then [e] else []) := by
      simp [subscribe_user, hne, hfind]
    have hmem : ({ id := some (db.length + 1), email := e
                   is_active := true, date_subscribed := now } : Subscriber)
        ∈ db ++ [{ id := some (db.length + 1), email := e
                   is_active := true, date_subscribed := now }] :=
      List.mem_append_right _ (List.mem_singleton_self _)
    have hdb2 : (subscribe_user (some e) now conf db).2.1
        = db ++ [{ id := some (db.length + 1), email := e
                   is_active := true, date_subscribed := now }] := by rw [h1]
    have hsome2 : (((subscribe_user (some e) now conf db).2.1).find?
        (fun s => s.email == e)).isSome := by
      rw [hdb2]
      exact List.find?_isSome.mpr ⟨_, hmem, by simp⟩
    obtain ⟨t, ht⟩ := Option.isSome_iff_exists.mp hsome2
    refine ⟨?_, ?_, ?_, ?_⟩
    · rw [h1]
    · generalize (subscribe_user (some e) now conf db).2.1 = db2 at ht ⊢
      simp [subscribe_user, hne, ht]
    · generalize (subscribe_user (some e) now conf db).2.1 = db2 at ht ⊢
      simp [subscribe_user, hne, ht]
    · rw [hdb2, List.filter_append, hfilter]
      simp

/-- Witness for C3: subscribing `"a@x.com"` against a store that already
holds it conflicts; starting from the empty store, the first call succeeds,
the second conflicts, and one matching row remains. -/
theorem subscribe_conflict_witness :
    (subscribe_user (some "a@x.com") 1 true [⟨some 1, "a@x.com", true, 0⟩]
        = (.httpError 400 "Email already subscribed.",
            [⟨some 1, "a@x.com", true, 0⟩], [])) ∧
    ((subscribe_user (some "a@x.com") 0 true []).1
          = .ok "Subscription successful. A welcome email is being sent (if configured)." ∧
      (subscribe_user (some "a@x.com") 1 false
            (subscribe_user (some "a@x.com") 0 true []).2.1).1
          = .httpError 400 "Email already subscribed." ∧
      (subscribe_user (some "a@x.com") 1 false
            (subscribe_user (some "a@x.com") 0 true []).2.1).2.1
          = (subscribe_user (some "a@x.com") 0 true []).2.1 ∧
      ((subscribe_user (some "a@x.com") 0 true []).2.1.filter
          (fun s => s.email == "a@x.com")).length = 1) :=
  ⟨(subscribe_conflict "a@x.com" 1 1 true true [⟨some 1, "a@x.com", true, 0⟩]
      (by decide)).1 ⟨⟨some 1, "a@x.com", true, 0⟩, by simp, rfl⟩,
    (subscribe_conflict "a@x.com" 0 1 true false [] (by decide)).2 (by simp)⟩

/-- C5: the response and the persisted rows of a subscribe request are those
of `subscribe_user` — produced at the persistence commit, before any
background task runs — and are identical whatever the outcome of the
welcome-mail send: a notification failure neither fails the request nor
removes or alters the persisted record. -/
theorem subscribe_ack_independent_of_notification (email : Option String) (now : Nat)
    (conf mailOk mailOk2 : Bool) (db : List Subscriber) :
    (handle_subscribe email now conf mailOk db).1
        = (subscribe_user email now conf db).1 ∧
    (handle_subscribe email now conf mailOk db).2.1
        = (subscribe_user email now conf db).2.1 ∧
    (handle_subscribe email now conf mailOk db).1
        = (handle_subscribe email now conf mailOk2 db).1 ∧
    (handle_subscribe email now conf mailOk db).2.1
        = (handle_subscribe email now conf mailOk2 db).2.1 :=
  ⟨rfl, rfl, rfl, rfl⟩

/-- C10: every row created by a successful subscribe has the requested
email, `is_active = true`, and the creation timestamp `now`; the rows are
exactly the old ones plus that single record. -/
theorem subscribe_creates_active_record (email : Option String) (now : Nat)
    (conf : Bool) (db : List Subscriber) (msg : String)
    (h : (subscribe_user email now conf db).1 = .ok msg) :
    ∃ ue, email = some ue ∧
      (subscribe_user email now conf db).2.1
        = db ++ [{ id := some (db.length + 1), email := ue
                   is_active := true, date_subscribed := now }] := by
  match email with
  | none => exact absurd h (by simp [subscribe_user])
  | some ue =>
    by_cases hne : ue.isEmpty
    · exact absurd h (by simp [subscribe_user, hne])
    · match hfind : db.find? (fun s => s.email == ue) with
      | some s =>
        exact absurd h (by simp [subscribe_user, hne, hfind])
      | none =>
        exact ⟨ue, rfl, by simp [subscribe_user, hne, hfind]⟩

/-- Witness for C10: subscribing `"a@x.com"` at time 7 on the empty store
creates exactly the one active record stamped 7. -/
theorem subscribe_creates_active_record_witness :
    ∃ ue, (some "a@x.com" : Option String) = some ue ∧
      (subscribe_user (some "a@x.com") 7 false []).2.1
        = [] ++ [{ id := some 1, email := ue
                   is_active := true, date_subscribed := 7 }] :=
  subscribe_creates_active_record (some "a@x.com") 7 false []
    "Subscription successful. A welcome email is being sent (if configured)." (by decide)
